import Mathlib

/-!
Shallow embedding of the rollback-netcode core of the `ggrs` repository:
the sync layer (`src/ggrs/src/sync_layer.rs`) and the sync-test session
(`src/ggez/src/sessions/test_session.rs`), together with the parts of the
crate they use that are not among the sources (`lib.rs` constants,
`frame_info.rs` / `game_info.rs` data records, `input_queue.rs`,
`circular_buffer.rs`), which are modelled from the specification.

Rust `Result` values together with panics (assert failures, out-of-bounds
indexing, `unwrap` on `None`) are modelled by the three-valued `RRes`.
Machine integers: `FrameNumber` (i32) is modelled as `Int` (frame counts in
any reachable state are tiny, far from wrap-around), `usize`/`u32` sizes and
indices as `Nat`.
-/

namespace GGRS

/-- Modelled from the spec: `lib.rs` is not among the sources. The rollback
depth bound; the spec gives 8 as the concrete value ("e.g. 8"). -/
def MAX_PREDICTION_FRAMES : Nat := 8

/-- Modelled from the spec: `lib.rs` is not among the sources. The largest
per-player input-delay value the input queue accepts (a fixed compile-time
constant; its exact value is immaterial to the claims). -/
def MAX_INPUT_DELAY : Nat := 10

/-- Modelled from the spec: sentinel frame number meaning "unset",
conventionally -1 on a signed counter. -/
def NULL_FRAME : Int := -1

abbrev FrameNumber := Int

abbrev PlayerHandle := Nat

/-- Rust error taxonomy of the session and sync layer (spec section 7);
`GGRSError::PredictionThreshold` of the ggrs crate and `GGEZError` of the
ggez crate are merged into one type, as the spec's taxonomy does. -/
inductive GGEZError where
  | invalidRequest
  | invalidPlayerHandle
  | notSynchronized
  | predictionThreshold
  | syncTestFailed
  | generalFailure (msg : String)
  | unsupported
deriving DecidableEq, Repr

/-- Outcome of a Rust call: `Ok`, `Err`, or a panic (failed `assert!`,
out-of-bounds index, `unwrap()` on `None`). -/
inductive RRes (α : Type) where
  | ok (val : α)
  | err (e : GGEZError)
  | fatal
deriving DecidableEq, Repr

/-- Modelled from the spec: `frame_info.rs` is not among the sources. One
player's input for one frame: frame number and a fixed-length byte buffer of
exactly `size` bytes. -/
structure GameInput where
  frame : FrameNumber
  size : Nat
  bits : List Nat
deriving DecidableEq, Repr

/-- Modelled from the spec: a blank input of the given size (all bytes 0). -/
def GameInput.new (frame : FrameNumber) (size : Nat) : GameInput :=
  ⟨frame, size, List.replicate size 0⟩

/-- Modelled from the spec: copies the given bytes into the fixed-size `bits`
buffer (truncating or zero-padding to `size`). -/
def GameInput.copy_input (g : GameInput) (bytes : List Nat) : GameInput :=
  { g with bits := bytes.take g.size ++ List.replicate (g.size - bytes.length) 0 }

/-- Modelled from the spec: zeroes the input bits. -/
def GameInput.erase_bits (g : GameInput) : GameInput :=
  { g with bits := List.replicate g.size 0 }

/-- Modelled from the spec: `frame_info.rs` is not among the sources. A game
state snapshot: frame tag, opaque payload, optional host-supplied checksum. -/
structure GameState where
  frame : FrameNumber
  buffer : List Nat
  checksum : Option Int
deriving DecidableEq, Repr

/-- Modelled from the spec: the pre-initialized empty snapshot
(`frame = NULL_FRAME`) that fills the saved-state ring at construction. -/
def BLANK_STATE : GameState := ⟨NULL_FRAME, [], none⟩

/-- Modelled from the spec: `input_queue.rs` is not among the sources. The
per-player input queue of spec section 4.C, keeping the bookkeeping the
claims touch: the frame delay, the stored (authoritative) inputs, prediction
state and the request/incorrect markers. -/
structure InputQueue where
  input_size : Nat
  frame_delay : Nat
  inputs : List GameInput
  first_incorrect_frame : FrameNumber
  last_requested_frame : FrameNumber
  prediction : Option GameInput
deriving DecidableEq, Repr

/-- Modelled from the spec: a fresh, empty queue with zero delay. -/
def InputQueue.new (_handle : PlayerHandle) (input_size : Nat) : InputQueue :=
  ⟨input_size, 0, [], NULL_FRAME, NULL_FRAME, none⟩

/-- Modelled from the spec: `set_frame_delay(d)` stores the delay. -/
def InputQueue.set_frame_delay (q : InputQueue) (d : Nat) : InputQueue :=
  { q with frame_delay := d }

/-- Modelled from the spec: bits of the most recent authoritative input, or
zeroed bits if none. -/
def InputQueue.lastBits (q : InputQueue) : List Nat :=
  match q.inputs.getLast? with
  | some g => g.bits
  | none => List.replicate q.input_size 0

/-- Modelled from the spec, section 4.C `add_input`: store a copy whose frame
is `input.frame + frame_delay`; delay-induced gap frames are filled with
duplicates of the previous input's bits (or zeroed bits if none); if a
prediction existed for the stored frame, compare bit-for-bit and record
`first_incorrect_frame` on mismatch. Returns the stored frame. -/
def InputQueue.add_input (q : InputQueue) (inp : GameInput) : FrameNumber × InputQueue :=
  let target : FrameNumber := inp.frame + q.frame_delay
  let start : FrameNumber :=
    match q.inputs.getLast? with
    | some g => g.frame + 1
    | none => inp.frame
  let gaps : List GameInput :=
    (List.range (target - start).toNat).map (fun k => ⟨start + k, q.input_size, q.lastBits⟩)
  let stored : GameInput := ⟨target, inp.size, inp.bits⟩
  let fif : FrameNumber :=
    match q.prediction with
    | some p =>
        if p.frame = target ∧ p.bits ≠ inp.bits ∧
            (q.first_incorrect_frame = NULL_FRAME ∨ target < q.first_incorrect_frame)
        then target
        else q.first_incorrect_frame
    | none => q.first_incorrect_frame
  (target, { q with inputs := q.inputs ++ gaps ++ [stored], first_incorrect_frame := fif })

/-- Modelled from the spec, section 4.C `input(requested_frame)`: return the
stored authoritative input for the frame if present; otherwise return a
prediction whose bits are those of the last authoritative input (or zero
bits) and whose frame is the requested frame, remembering a newly created
prediction; update `last_requested_frame`. -/
def InputQueue.input (q : InputQueue) (requested_frame : FrameNumber) : GameInput × InputQueue :=
  let q1 := { q with last_requested_frame := max q.last_requested_frame requested_frame }
  match q.inputs.find? (fun g => g.frame == requested_frame) with
  | some g => (g, q1)
  | none =>
    match q.prediction with
    | some p => ({ p with frame := requested_frame }, q1)
    | none =>
      let p : GameInput := ⟨requested_frame, q.input_size, q.lastBits⟩
      (p, { q1 with prediction := some p })

/-- Modelled from the spec, section 4.C `discard_confirmed_frames(frame)`:
drop all stored inputs whose frame is strictly less than the argument. -/
def InputQueue.discard_confirmed_frames (q : InputQueue) (frame : FrameNumber) : InputQueue :=
  { q with inputs := q.inputs.filter (fun g => decide (frame ≤ g.frame)) }

/-- The saved-state ring of `sync_layer.rs` (`SavedStates<GameState>`): a
fixed array of `MAX_PREDICTION_FRAMES` snapshots (modelled as a list of that
length) and a head cursor. -/
structure SavedStates where
  states : List GameState
  head : Nat
deriving DecidableEq, Repr

/-- `SavedStates::save_state`: advance `head` by one modulo the array length,
then place the snapshot at the new `head`. -/
def SavedStates.save_state (r : SavedStates) (state_to_save : GameState) : SavedStates :=
  let h := (r.head + 1) % r.states.length
  { states := r.states.set h state_to_save, head := h }

/-- `SavedStates::state_at_head`: the snapshot at the head cursor. -/
def SavedStates.state_at_head (r : SavedStates) : GameState :=
  r.states.getD r.head BLANK_STATE

/-- `SavedStates::state_in_past`: the snapshot `frames_in_past` positions
before head, with Euclidean remainder. -/
def SavedStates.state_in_past (r : SavedStates) (frames_in_past : Nat) : GameState :=
  let pos := (((r.head : Int) - frames_in_past).emod MAX_PREDICTION_FRAMES).toNat
  r.states.getD pos BLANK_STATE

/-- The sync layer of `sync_layer.rs`. -/
structure SyncLayer where
  num_players : Nat
  input_size : Nat
  saved_states : SavedStates
  rolling_back : Bool
  last_confirmed_frame : FrameNumber
  current_frame : FrameNumber
  input_queues : List InputQueue
deriving DecidableEq, Repr

/-- `SyncLayer::new`: fresh queues, blank ring, `current_frame = 0`,
`last_confirmed_frame = -1`. -/
def SyncLayer.new (num_players : Nat) (input_size : Nat) : SyncLayer :=
  { num_players := num_players
    input_size := input_size
    rolling_back := false
    last_confirmed_frame := -1
    current_frame := 0
    saved_states := { head := 0, states := List.replicate MAX_PREDICTION_FRAMES BLANK_STATE }
    input_queues := (List.range num_players).map (fun i => InputQueue.new i input_size) }

/-- `SyncLayer::advance_frame`: `current_frame += 1`. -/
def SyncLayer.advance_frame (sl : SyncLayer) : SyncLayer :=
  { sl with current_frame := sl.current_frame + 1 }

/-- `SyncLayer::save_current_state`: asserts the snapshot's frame is not
`NULL_FRAME`, then saves into the ring. -/
def SyncLayer.save_current_state (sl : SyncLayer) (state_to_save : GameState) : RRes SyncLayer :=
  if state_to_save.frame ≠ NULL_FRAME then
    .ok { sl with saved_states := sl.saved_states.save_state state_to_save }
  else .fatal

/-- `SyncLayer::last_saved_state`: the head snapshot, or `none` when its
frame is `NULL_FRAME`. -/
def SyncLayer.last_saved_state (sl : SyncLayer) : Option GameState :=
  if sl.saved_states.state_at_head.frame = NULL_FRAME then none
  else some sl.saved_states.state_at_head

/-- `SyncLayer::set_frame_delay`: asserts `player_handle < num_players` and
`delay <= MAX_INPUT_DELAY`, then delegates to the player's queue. -/
def SyncLayer.set_frame_delay (sl : SyncLayer) (player_handle : PlayerHandle) (delay : Nat) :
    RRes SyncLayer :=
  if player_handle < sl.num_players then
    if delay ≤ MAX_INPUT_DELAY then
      match sl.input_queues[player_handle]? with
      | some q =>
          .ok { sl with input_queues := sl.input_queues.set player_handle (q.set_frame_delay delay) }
      | none => .fatal
    else .fatal
  else .fatal

/-- The linear scan of `SyncLayer::find_saved_frame_index` over the ring's
states array: first index whose snapshot carries the given frame, `none`
modelling the panic when no state matches. -/
def scanFrame (frame : FrameNumber) : List GameState → Option Nat
  | [] => none
  | s :: rest =>
    if s.frame = frame then some 0
    else (scanFrame frame rest).map (· + 1)

/-- `SyncLayer::find_saved_frame_index`: linear scan over the saved states. -/
def SyncLayer.find_saved_frame_index (sl : SyncLayer) (frame : FrameNumber) : Option Nat :=
  scanFrame frame sl.saved_states.states

/-- `SyncLayer::load_frame`: asserts the frame is non-null, in the past, and
within `MAX_PREDICTION_FRAMES`; locates the ring entry with that frame,
asserts it matches, sets `head` one slot past it, sets `current_frame` to the
loaded frame, and returns the loaded snapshot. -/
def SyncLayer.load_frame (sl : SyncLayer) (frame_to_load : FrameNumber) :
    RRes (GameState × SyncLayer) :=
  if frame_to_load ≠ NULL_FRAME ∧ frame_to_load < sl.current_frame ∧
      sl.current_frame - (MAX_PREDICTION_FRAMES : Int) ≤ frame_to_load then
    match sl.find_saved_frame_index frame_to_load with
    | none => .fatal
    | some idx =>
      let state_to_load := sl.saved_states.states.getD idx BLANK_STATE
      if state_to_load.frame = frame_to_load then
        .ok (state_to_load,
          { sl with
            saved_states := { sl.saved_states with head := (idx + 1) % MAX_PREDICTION_FRAMES }
            current_frame := frame_to_load })
      else .fatal
  else .fatal

/-- `SyncLayer::add_local_input`: fail with `PredictionThreshold` when
`current_frame - last_confirmed_frame > MAX_PREDICTION_FRAMES`; otherwise
assert the input's frame equals `current_frame` and delegate to the player's
queue (an out-of-range handle panics on the `Vec` index). The pair returns
the outcome together with the post-call state (`&mut self`). -/
def SyncLayer.add_local_input (sl : SyncLayer) (player_handle : PlayerHandle)
    (input : GameInput) : RRes FrameNumber × SyncLayer :=
  let frames_behind := sl.current_frame - sl.last_confirmed_frame
  if frames_behind > (MAX_PREDICTION_FRAMES : Int) then
    (.err .predictionThreshold, sl)
  else if input.frame = sl.current_frame then
    match sl.input_queues[player_handle]? with
    | some q =>
      let res := q.add_input input
      (.ok res.1, { sl with input_queues := sl.input_queues.set player_handle res.2 })
    | none => (.fatal, sl)
  else (.fatal, sl)

/-- `SyncLayer::synchronized_inputs`: one input per player at the current
frame, produced (and queue prediction state updated) queue by queue. -/
def SyncLayer.synchronized_inputs (sl : SyncLayer) : List GameInput × SyncLayer :=
  let folded := sl.input_queues.foldl
    (fun (acc : List GameInput × List InputQueue) q =>
      let res := q.input sl.current_frame
      (acc.1 ++ [res.1], acc.2 ++ [res.2]))
    ([], [])
  (folded.1, { sl with input_queues := folded.2 })

/-- `SyncLayer::set_last_confirmed_frame`: record the frame; when it is
positive, discard inputs before `frame - 1` in every queue. -/
def SyncLayer.set_last_confirmed_frame (sl : SyncLayer) (frame : FrameNumber) : SyncLayer :=
  let sl1 := { sl with last_confirmed_frame := frame }
  if frame > 0 then
    { sl1 with input_queues := sl1.input_queues.map (fun q => q.discard_confirmed_frames (frame - 1)) }
  else sl1

/-- Modelled from the spec: `game_info.rs` is not among the sources. One
history record of the sync-test session: frame, snapshot at that frame,
local input at that frame. -/
structure FrameInfo where
  frame : FrameNumber
  state : GameState
  input : GameInput
deriving DecidableEq, Repr

/-- Modelled from the spec: `circular_buffer.rs` is not among the sources. A
ring buffer holding the last `capacity` pushed records. -/
structure CircularBuffer (α : Type) where
  capacity : Nat
  items : List α
deriving DecidableEq, Repr

/-- Modelled from the spec: an empty buffer of the given capacity. -/
def CircularBuffer.new (α : Type) (capacity : Nat) : CircularBuffer α :=
  ⟨capacity, []⟩

/-- Modelled from the spec: append a record, dropping the oldest when the
buffer is full. -/
def CircularBuffer.push_back {α : Type} (b : CircularBuffer α) (x : α) : CircularBuffer α :=
  if b.items.length < b.capacity then { b with items := b.items ++ [x] }
  else { b with items := b.items.drop 1 ++ [x] }

/-- Modelled from the spec: number of records currently held. -/
def CircularBuffer.len {α : Type} (b : CircularBuffer α) : Nat :=
  b.items.length

/-- Modelled from the spec: the record at a position (oldest first). -/
def CircularBuffer.get {α : Type} (b : CircularBuffer α) (i : Nat) : Option α :=
  b.items[i]?

/-- A player record as passed to `add_player` (only the handle matters to the
session). -/
structure Player where
  player_handle : PlayerHandle
deriving DecidableEq, Repr

/-- The host capability set (spec section 6): the game-side callbacks
`save_game_state`, `load_game_state` and `advance_frame`, over an abstract
host state `σ`. -/
structure Host (σ : Type) where
  save_game_state : σ → GameState
  load_game_state : σ → GameState → σ
  advance_frame : σ → List GameInput → Nat → σ

/-- The sync-test session of `test_session.rs`. -/
structure SyncTestSession where
  current_frame : FrameNumber
  num_players : Nat
  input_size : Nat
  check_distance : Nat
  running : Bool
  current_input : GameInput
  saved_frames : CircularBuffer FrameInfo
  sync_layer : SyncLayer
deriving DecidableEq, Repr

/-- `SyncTestSession::new`. -/
def SyncTestSession.new (check_distance : Nat) (num_players : Nat) (input_size : Nat) :
    SyncTestSession :=
  { current_frame := NULL_FRAME
    num_players := num_players
    input_size := input_size
    check_distance := check_distance
    running := false
    current_input := GameInput.new NULL_FRAME input_size
    saved_frames := CircularBuffer.new FrameInfo MAX_PREDICTION_FRAMES
    sync_layer := SyncLayer.new num_players input_size }

/-- `SyncTestSession::add_player`: rejects a handle strictly greater than
`num_players` with `InvalidRequest`, otherwise returns it. -/
def SyncTestSession.add_player (s : SyncTestSession) (player : Player) : RRes PlayerHandle :=
  if player.player_handle > s.num_players then .err .invalidRequest
  else .ok player.player_handle

/-- `SyncTestSession::start_session`: `InvalidRequest` when already running;
otherwise set `running` and `current_frame = 0`. -/
def SyncTestSession.start_session (s : SyncTestSession) : RRes SyncTestSession :=
  if s.running then .err .invalidRequest
  else .ok { s with running := true, current_frame := 0 }

/-- `SyncTestSession::add_local_input`: handle check (strictly greater than
`num_players`) first, then the running check; then copy the bytes into
`current_input`, stamp it with the session's current frame, and submit to the
sync layer. Returns the outcome paired with the post-call session state. -/
def SyncTestSession.add_local_input (s : SyncTestSession) (player_handle : PlayerHandle)
    (input : List Nat) : RRes Unit × SyncTestSession :=
  if player_handle > s.num_players then (.err .invalidPlayerHandle, s)
  else if !s.running then (.err .notSynchronized, s)
  else
    let ci0 := s.current_input.copy_input input
    let ci := { ci0 with frame := s.current_frame }
    let s1 := { s with current_input := ci }
    match s1.sync_layer.add_local_input player_handle ci with
    | (.ok _, sl) => (.ok (), { s1 with sync_layer := sl })
    | (.err e, sl) => (.err e, { s1 with sync_layer := sl })
    | (.fatal, sl) => (.fatal, { s1 with sync_layer := sl })

/-- One iteration of the rollback-verification loop of
`SyncTestSession::advance_frame` (loop variable `i`): save the current state
through the sync layer, fetch the original `FrameInfo` from the history,
check the two frame-count assertions, compare the head snapshot's checksum
with the original's when both are present (`SyncTestFailed` on mismatch), and
otherwise re-advance one frame. -/
def resim_step {σ : Type} (H : Host σ) (check_distance : Nat) (frame_to_load : FrameNumber)
    (saved_frames : CircularBuffer FrameInfo) (i : Nat) (hs : σ) (sl : SyncLayer) :
    RRes (σ × SyncLayer) :=
  match sl.save_current_state (H.save_game_state hs) with
  | .err e => .err e
  | .fatal => .fatal
  | .ok sl1 =>
    let pos_in_queue := saved_frames.len - 1 - i
    match saved_frames.get pos_in_queue with
    | none => .err (.generalFailure "sync test could not load frame info from own queue")
    | some old_frame_info =>
      if old_frame_info.frame = frame_to_load + ((check_distance : Int) - 1 - (i : Int)) then
        if sl1.current_frame = old_frame_info.frame then
          let cont : RRes (σ × SyncLayer) :=
            let res := sl1.synchronized_inputs
            let sl3 := res.2.advance_frame
            .ok (H.advance_frame hs res.1 0, sl3)
          match sl1.last_saved_state with
          | none => .fatal
          | some last_saved_state =>
            match last_saved_state.checksum, old_frame_info.state.checksum with
            | some cs1, some cs2 => if cs1 ≠ cs2 then .err .syncTestFailed else cont
            | _, _ => cont
        else .fatal
      else .fatal

/-- The rollback-verification loop: `for i in (0..check_distance).rev()`,
run with fuel equal to the number of remaining iterations (`i` is the fuel
minus one). -/
def resim_loop {σ : Type} (H : Host σ) (check_distance : Nat) (frame_to_load : FrameNumber)
    (saved_frames : CircularBuffer FrameInfo) :
    Nat → σ → SyncLayer → RRes (σ × SyncLayer)
  | 0, hs, sl => .ok (hs, sl)
  | n + 1, hs, sl =>
    match resim_step H check_distance frame_to_load saved_frames n hs sl with
    | .ok res => resim_loop H check_distance frame_to_load saved_frames n res.1 res.2
    | .err e => .err e
    | .fatal => .fatal

/-- `SyncTestSession::advance_frame`: save the pre-advance snapshot, push a
history record, fetch synchronized inputs (with the two frame assertions),
advance host and sync layer one frame, then — when the history is longer than
`check_distance` — load the state `check_distance` frames back, re-simulate
forward comparing checksums, and finally set the last confirmed frame. All
`assert!`/`assert_eq!` failures are `fatal`. -/
def SyncTestSession.advance_frame {σ : Type} (s : SyncTestSession) (H : Host σ) (hs : σ) :
    RRes (σ × SyncTestSession) :=
  match s.sync_layer.save_current_state (H.save_game_state hs) with
  | .err e => .err e
  | .fatal => .fatal
  | .ok sl1 =>
    match sl1.last_saved_state with
    | none => .err (.generalFailure "sync layer did not return a last saved state")
    | some fi =>
      let saved_frames := s.saved_frames.push_back ⟨s.current_frame, fi, s.current_input⟩
      let res := sl1.synchronized_inputs
      let sync_inputs := res.1
      let sl2 := res.2
      match sync_inputs[0]? with
      | none => .fatal
      | some first =>
        if first.frame = sl2.current_frame ∧ first.frame = s.current_frame then
          let hs1 := H.advance_frame hs sync_inputs 0
          let sl3 := sl2.advance_frame
          let cf := s.current_frame + 1
          let ci := s.current_input.erase_bits
          if saved_frames.len > s.check_distance then
            let frame_to_load := cf - (s.check_distance : Int)
            match sl3.load_frame frame_to_load with
            | .err e => .err e
            | .fatal => .fatal
            | .ok res2 =>
              let hs2 := H.load_game_state hs1 res2.1
              let sl4 := res2.2
              if sl4.current_frame = frame_to_load then
                match resim_loop H s.check_distance frame_to_load saved_frames
                    s.check_distance hs2 sl4 with
                | .err e => .err e
                | .fatal => .fatal
                | .ok res3 =>
                  let gs_compare := H.save_game_state res3.1
                  if gs_compare.frame = cf ∧ res3.2.current_frame = cf then
                    let sl6 := res3.2.set_last_confirmed_frame (cf - (s.check_distance : Int))
                    if sl6.current_frame = cf then
                      .ok (res3.1, { s with current_frame := cf, current_input := ci,
                                            saved_frames := saved_frames, sync_layer := sl6 })
                    else .fatal
                  else .fatal
              else .fatal
          else
            if sl3.current_frame = cf then
              .ok (hs1, { s with current_frame := cf, current_input := ci,
                                 saved_frames := saved_frames, sync_layer := sl3 })
            else .fatal
        else .fatal

/-- `SyncTestSession::set_frame_delay`: `InvalidRequest` when already
running; otherwise delegate to the sync layer. -/
def SyncTestSession.set_frame_delay (s : SyncTestSession) (frame_delay : Nat)
    (player_handle : PlayerHandle) : RRes SyncTestSession :=
  if s.running then .err .invalidRequest
  else
    match s.sync_layer.set_frame_delay player_handle frame_delay with
    | .ok sl => .ok { s with sync_layer := sl }
    | .err e => .err e
    | .fatal => .fatal

/-!
Helpers for building concrete states through the embedded API.
-/

/-- Extract the success payload of an `RRes`, with a default. -/
def RRes.getD {α : Type} (r : RRes α) (d : α) : α :=
  match r with
  | .ok a => a
  | _ => d

/-- A fresh session that has been started through `start_session`. -/
def startedSession (check_distance num_players input_size : Nat) : SyncTestSession :=
  (SyncTestSession.new check_distance num_players input_size).start_session.getD
    (SyncTestSession.new check_distance num_players input_size)

/-- A deterministic host over an integer state: the snapshot is tagged and
checksummed with the counter, advancing increments it, loading restores it
from the snapshot's frame tag. -/
def countingHost : Host Int :=
  { save_game_state := fun s => ⟨s, [], some s⟩
    load_game_state := fun _ g => g.frame
    advance_frame := fun s _ _ => s + 1 }

/-!
Claim C1.
-/

/-- C1: the claim states that with `check_distance == 0` the rollback section
of `advance_frame` is disabled and every call returns normally. On the code
the very first `advance_frame` of a running session already enters the
rollback block (history length 1 > 0) and calls `load_frame(current_frame)`,
whose assertion `frame_to_load < current_frame` fails: the call is fatal, not
normal. -/
theorem C1_check_distance_zero_first_advance_fatal :
    (startedSession 0 2 4).advance_frame countingHost 0 = RRes.fatal := by
  rfl

/-!
Claim C3.
-/

/-- C3 counterexample: on a 2-player session, `add_player` with handle 2
(out of range by the claim, since 2 ≥ num_players) returns the handle
instead of `InvalidRequest` — the source checks `handle > num_players`, not
`handle ≥ num_players`. -/
theorem C3_counterexample_handle_eq_num_players :
    (SyncTestSession.new 1 2 4).add_player ⟨2⟩ = RRes.ok 2 := by
  rfl

/-- C3 (amended): `add_player` returns `InvalidRequest` whenever
`handle > num_players` and returns the handle whenever
`handle ≤ num_players` (in particular the boundary `handle = num_players`
is accepted). -/
theorem C3_add_player_range_check (s : SyncTestSession) (h : PlayerHandle) :
    (h > s.num_players → s.add_player ⟨h⟩ = RRes.err GGEZError.invalidRequest) ∧
    (h ≤ s.num_players → s.add_player ⟨h⟩ = RRes.ok h) := by
  constructor <;> intro hh <;> unfold SyncTestSession.add_player
  · rw [if_pos hh]
  · rw [if_neg (Nat.not_lt.mpr hh)]

/-- C3 witness: the amended range check at concrete handles 3 and 1 on a
2-player session. -/
theorem C3_add_player_range_check_witness :
    (SyncTestSession.new 1 2 4).add_player ⟨3⟩ = RRes.err GGEZError.invalidRequest ∧
    (SyncTestSession.new 1 2 4).add_player ⟨1⟩ = RRes.ok 1 :=
  ⟨(C3_add_player_range_check (SyncTestSession.new 1 2 4) 3).1 (by decide),
   (C3_add_player_range_check (SyncTestSession.new 1 2 4) 1).2 (by decide)⟩

/-!
Claim C4.
-/

/-- C4: the claim (and the spec's error table) says a running session's
`add_local_input` returns `InvalidPlayerHandle` for every
`handle ≥ num_players`. On the code the guard is `handle > num_players`, so
at `handle == num_players` the call passes the guard and indexes
`input_queues[num_players]` — out of bounds — which panics instead of
returning the error: evaluated here at the failing input (a started
2-player session, handle 2). -/
theorem C4_handle_eq_num_players_panics :
    ((startedSession 1 2 4).add_local_input 2 [0, 0, 0, 0]).1 = RRes.fatal := by
  rfl

/-!
Claim C5.
-/

/-- C5 counterexample: `set_frame_delay` with `d = MAX_INPUT_DELAY + 1` does
not succeed with a clamped delay — the source `assert!(delay <=
MAX_INPUT_DELAY)` makes the call fatal. -/
theorem C5_counterexample_no_clamp :
    (SyncLayer.new 2 4).set_frame_delay 0 (MAX_INPUT_DELAY + 1) = RRes.fatal := by
  rfl

/-- C5 (amended): `set_frame_delay` asserts `d ≤ MAX_INPUT_DELAY` instead of
clamping: every call with `d > MAX_INPUT_DELAY` is a fatal assertion
failure, and a call with `d ≤ MAX_INPUT_DELAY` and a valid handle succeeds
with the queue's effective delay set to `d` itself. -/
theorem C5_set_frame_delay_asserts_bound (sl : SyncLayer) (p : PlayerHandle) (d : Nat) :
    (MAX_INPUT_DELAY < d → sl.set_frame_delay p d = RRes.fatal) ∧
    (p < sl.num_players → p < sl.input_queues.length → d ≤ MAX_INPUT_DELAY →
      ∃ sl2, sl.set_frame_delay p d = RRes.ok sl2 ∧
        (sl2.input_queues[p]?).map InputQueue.frame_delay = some d) := by
  constructor
  · intro hd
    unfold SyncLayer.set_frame_delay
    rcases Nat.lt_or_ge p sl.num_players with hp | hp
    · rw [if_pos hp, if_neg (Nat.not_le.mpr hd)]
    · rw [if_neg (Nat.not_lt.mpr hp)]
  · intro hp hq hd
    unfold SyncLayer.set_frame_delay
    rw [if_pos hp, if_pos hd, List.getElem?_eq_getElem hq]
    refine ⟨_, rfl, ?_⟩
    rw [List.getElem?_set_eq_of_lt _ (by simpa using hq)]
    rfl

/-- C5 witness: the amended behavior at concrete inputs — delay 11 is fatal,
delay 5 succeeds and sets the queue delay to 5. -/
theorem C5_set_frame_delay_asserts_bound_witness :
    (SyncLayer.new 2 4).set_frame_delay 0 11 = RRes.fatal ∧
    ∃ sl2, (SyncLayer.new 2 4).set_frame_delay 0 5 = RRes.ok sl2 ∧
      (sl2.input_queues[0]?).map InputQueue.frame_delay = some 5 :=
  ⟨(C5_set_frame_delay_asserts_bound (SyncLayer.new 2 4) 0 11).1 (by decide),
   (C5_set_frame_delay_asserts_bound (SyncLayer.new 2 4) 0 5).2 (by decide) (by decide) (by decide)⟩

/-!
Claim C6.
-/

/-- C6: `SyncLayer::add_local_input` fails with `PredictionThreshold` if and
only if `current_frame - last_confirmed_frame > MAX_PREDICTION_FRAMES` held
before the call; in particular, at exactly `MAX_PREDICTION_FRAMES` frames
behind (with a valid handle and an input stamped with the current frame) it
succeeds. -/
theorem C6_prediction_threshold_iff (sl : SyncLayer) (p : PlayerHandle) (inp : GameInput)
    (hq : p < sl.input_queues.length) (hf : inp.frame = sl.current_frame) :
    ((sl.add_local_input p inp).1 = RRes.err GGEZError.predictionThreshold ↔
      sl.current_frame - sl.last_confirmed_frame > (MAX_PREDICTION_FRAMES : Int)) ∧
    (sl.current_frame - sl.last_confirmed_frame = (MAX_PREDICTION_FRAMES : Int) →
      ∃ f, (sl.add_local_input p inp).1 = RRes.ok f) := by
  unfold SyncLayer.add_local_input
  by_cases hfb : sl.current_frame - sl.last_confirmed_frame > (MAX_PREDICTION_FRAMES : Int)
  · rw [if_pos hfb]
    exact ⟨⟨fun _ => hfb, fun _ => rfl⟩, fun heq => absurd (heq ▸ hfb) (lt_irrefl _)⟩
  · rw [if_neg hfb, if_pos hf, List.getElem?_eq_getElem hq]
    exact ⟨⟨fun h => by simp at h, fun h => absurd h hfb⟩, fun _ => ⟨_, rfl⟩⟩

/-- C6 witness: a 2-player layer exactly `MAX_PREDICTION_FRAMES` frames past
its last confirmed frame accepts the input. -/
theorem C6_prediction_threshold_iff_witness :
    ({ SyncLayer.new 2 4 with current_frame := 7 }).current_frame -
      ({ SyncLayer.new 2 4 with current_frame := 7 }).last_confirmed_frame =
      (MAX_PREDICTION_FRAMES : Int) ∧
    ∃ f, (({ SyncLayer.new 2 4 with current_frame := 7 }).add_local_input 0
      (GameInput.new 7 4)).1 = RRes.ok f :=
  ⟨by decide,
   (C6_prediction_threshold_iff { SyncLayer.new 2 4 with current_frame := 7 } 0
     (GameInput.new 7 4) (by decide) (by decide)).2 (by decide)⟩

/-!
Claim C2.
-/

/-- A fresh 2-player sync layer after saving a frame-0 snapshot, advancing,
saving a frame-1 snapshot, and advancing again (so frames 0 and 1 occupy
ring slots 1 and 2 and `current_frame = 2`). -/
def c2afterSaves : SyncLayer :=
  ((((SyncLayer.new 2 4).save_current_state ⟨0, [0], none⟩).getD
        (SyncLayer.new 2 4)).advance_frame.save_current_state ⟨1, [1], none⟩).getD
      (SyncLayer.new 2 4) |>.advance_frame

/-- The layer after `load_frame 0` succeeds on `c2afterSaves` (the snapshot
is read from ring slot 1). -/
def c2loaded : SyncLayer :=
  match c2afterSaves.load_frame 0 with
  | .ok r => r.2
  | _ => c2afterSaves

/-- The layer after re-saving a frame-0 snapshot following the load. -/
def c2resaved : SyncLayer :=
  (c2loaded.save_current_state ⟨0, [9], none⟩).getD c2loaded

/-- C2 counterexample: the frame-0 snapshot was loaded from ring slot 1, yet
the subsequent `save_current_state` of a frame-0 snapshot lands in slot 3 —
not the slot the loaded snapshot was read from (slot 1 still holds the old
snapshot). -/
theorem C2_counterexample_resave_not_same_slot :
    c2afterSaves.find_saved_frame_index 0 = some 1 ∧
    c2resaved.saved_states.states.getD 1 BLANK_STATE ≠ (⟨0, [9], none⟩ : GameState) ∧
    c2resaved.saved_states.states.getD 3 BLANK_STATE = (⟨0, [9], none⟩ : GameState) := by
  refine ⟨rfl, ?_, rfl⟩
  decide

/-- C2 (amended): when `load_frame f` succeeds, reading its snapshot from
ring slot `j`, afterwards `current_frame = f`; a subsequent
`save_current_state s` with `s.frame = f` places `s` into slot
`(j + 2) % MAX_PREDICTION_FRAMES` — two slots past the one the snapshot was
read from — because `load_frame` leaves the head one past the read slot and
`save_state` advances the head again before writing. -/
theorem C2_load_then_save_slot (sl : SyncLayer) (f : FrameNumber) (st : GameState)
    (sl2 : SyncLayer) (j : Nat) (s : GameState) (sl3 : SyncLayer)
    (hlen : sl.saved_states.states.length = MAX_PREDICTION_FRAMES)
    (hload : sl.load_frame f = RRes.ok (st, sl2))
    (hfind : sl.find_saved_frame_index f = some j)
    (_hs : s.frame = f)
    (hsave : sl2.save_current_state s = RRes.ok sl3) :
    sl2.current_frame = f ∧
    sl3.saved_states.head = (j + 2) % MAX_PREDICTION_FRAMES ∧
    sl3.saved_states.states.getD ((j + 2) % MAX_PREDICTION_FRAMES) BLANK_STATE = s := by
  unfold SyncLayer.load_frame at hload
  rw [hfind] at hload
  by_cases hcond : f ≠ NULL_FRAME ∧ f < sl.current_frame ∧
      sl.current_frame - (MAX_PREDICTION_FRAMES : Int) ≤ f
  · rw [if_pos hcond] at hload
    simp only [] at hload
    by_cases hfr : (sl.saved_states.states.getD j BLANK_STATE).frame = f
    · rw [if_pos hfr] at hload
      have hsl2 : sl2 = { sl with
          saved_states := { sl.saved_states with head := (j + 1) % MAX_PREDICTION_FRAMES }
          current_frame := f } := by
        cases hload
        rfl
      subst hsl2
      refine ⟨rfl, ?_⟩
      unfold SyncLayer.save_current_state at hsave
      by_cases hnull : s.frame ≠ NULL_FRAME
      · rw [if_pos hnull] at hsave
        have hsl3 : sl3 = { sl with
            saved_states := SavedStates.save_state
              { sl.saved_states with head := (j + 1) % MAX_PREDICTION_FRAMES } s
            current_frame := f } := by
          cases hsave
          rfl
        subst hsl3
        unfold SavedStates.save_state
        have hhead : ((j + 1) % MAX_PREDICTION_FRAMES + 1) % sl.saved_states.states.length =
            (j + 2) % MAX_PREDICTION_FRAMES := by
          rw [hlen, Nat.mod_add_mod]
        refine ⟨hhead, ?_⟩
        rw [hhead]
        have hlt : (j + 2) % MAX_PREDICTION_FRAMES < sl.saved_states.states.length := by
          rw [hlen]
          exact Nat.mod_lt _ (by decide)
        rw [List.getD_eq_getElem?_getD, List.getElem?_set_eq_of_lt _ hlt]
        rfl
      · rw [if_neg hnull] at hsave
        cases hsave
    · rw [if_neg hfr] at hload
      cases hload
  · rw [if_neg hcond] at hload
    cases hload

/-- C2 witness: the amended slot arithmetic on the concrete run — after
loading frame 0 from slot 1, the re-save of a frame-0 snapshot lands in slot
`(1 + 2) % MAX_PREDICTION_FRAMES = 3`. -/
theorem C2_load_then_save_slot_witness :
    c2afterSaves.saved_states.states.length = MAX_PREDICTION_FRAMES ∧
    (c2loaded.current_frame = 0 ∧
      c2resaved.saved_states.head = (1 + 2) % MAX_PREDICTION_FRAMES ∧
      c2resaved.saved_states.states.getD ((1 + 2) % MAX_PREDICTION_FRAMES) BLANK_STATE =
        (⟨0, [9], none⟩ : GameState)) :=
  ⟨rfl, C2_load_then_save_slot c2afterSaves 0 ⟨0, [0], none⟩ c2loaded 1 ⟨0, [9], none⟩
    c2resaved rfl rfl rfl rfl rfl⟩

/-!
List helpers shared by the ring-slot proofs.
-/

/-- Reading a just-written ring slot gives the written snapshot. -/
theorem getD_set_self {α : Type} (l : List α) (i : Nat) (a d : α) (h : i < l.length) :
    (l.set i a).getD i d = a := by
  rw [List.getD_eq_getElem?_getD, List.getElem?_set_eq_of_lt _ (by simpa using h)]
  rfl

/-- Writing one ring slot leaves the others unchanged. -/
theorem getD_set_ne {α : Type} (l : List α) (i k : Nat) (a d : α) (h : i ≠ k) :
    (l.set i a).getD k d = l.getD k d := by
  rw [List.getD_eq_getElem?_getD, List.getD_eq_getElem?_getD, List.getElem?_set_ne h]

/-- After `save_current_state` succeeds, the head snapshot is the one just
saved (so `last_saved_state` returns it), and the current frame is
untouched. -/
theorem last_saved_state_after_save (sl : SyncLayer) (g : GameState) (sl1 : SyncLayer)
    (hlen : 0 < sl.saved_states.states.length)
    (hg : g.frame ≠ NULL_FRAME)
    (hsave : sl.save_current_state g = RRes.ok sl1) :
    sl1.last_saved_state = some g ∧ sl1.current_frame = sl.current_frame := by
  unfold SyncLayer.save_current_state at hsave
  rw [if_pos hg] at hsave
  cases hsave
  constructor
  · unfold SyncLayer.last_saved_state SavedStates.state_at_head SavedStates.save_state
    simp only []
    rw [getD_set_self _ _ _ _ (Nat.mod_lt _ hlen)]
    rw [if_neg hg]
  · rfl

/-!
Claim C7.
-/

/-- C7: one iteration of the rollback-verification loop (with the frame-count
assertions holding) returns `SyncTestFailed` if and only if both the
re-simulated head snapshot's checksum and the original recorded snapshot's
checksum are present and differ; when either is absent, the iteration does
not fail. -/
theorem C7_sync_test_failed_iff_checksum_mismatch {σ : Type} (H : Host σ) (hs : σ)
    (sl : SyncLayer) (check_distance : Nat) (frame_to_load : FrameNumber)
    (saved_frames : CircularBuffer FrameInfo) (i : Nat) (ofi : FrameInfo)
    (hlen : 0 < sl.saved_states.states.length)
    (hsv : (H.save_game_state hs).frame ≠ NULL_FRAME)
    (hget : saved_frames.get (saved_frames.len - 1 - i) = some ofi)
    (hfr : ofi.frame = frame_to_load + ((check_distance : Int) - 1 - (i : Int)))
    (hcf : sl.current_frame = ofi.frame) :
    resim_step H check_distance frame_to_load saved_frames i hs sl =
        RRes.err GGEZError.syncTestFailed ↔
      ∃ a b, (H.save_game_state hs).checksum = some a ∧
        ofi.state.checksum = some b ∧ a ≠ b := by
  have hsave : sl.save_current_state (H.save_game_state hs) =
      RRes.ok { sl with
        saved_states := sl.saved_states.save_state (H.save_game_state hs) } := by
    unfold SyncLayer.save_current_state
    rw [if_pos hsv]
  obtain ⟨hls, -⟩ := last_saved_state_after_save sl (H.save_game_state hs) _ hlen hsv hsave
  unfold resim_step
  rw [hsave]
  simp only []
  rw [hget]
  simp only []
  rw [if_pos hfr, if_pos (show SyncLayer.current_frame { sl with
      saved_states := sl.saved_states.save_state (H.save_game_state hs) } = ofi.frame from hcf)]
  rw [hls]
  rcases hc1 : (H.save_game_state hs).checksum with _ | a <;>
    rcases hc2 : ofi.state.checksum with _ | b <;> simp only []
  · simp [hc1]
  · simp [hc1]
  · simp [hc2]
  · rw [hc1]
    simp only []
    by_cases hab : a = b
    · rw [if_neg (not_not_intro hab)]
      constructor
      · intro h
        exact absurd h (by simp)
      · rintro ⟨x, y, hx, hy, hxy⟩
        cases hx
        cases hy
        exact absurd hab hxy
    · rw [if_pos hab]
      exact ⟨fun _ => ⟨a, b, rfl, rfl, hab⟩, fun _ => rfl⟩

/-- The host, sync layer and history used for the C7 witness: the original
frame-5 record carries checksum 9, the host's re-simulated snapshot carries
checksum 7. -/
def c7saved : CircularBuffer FrameInfo :=
  ⟨8, [⟨5, ⟨5, [], some 9⟩, GameInput.new 5 4⟩]⟩

/-- The sync layer at the re-simulated frame 5 for the C7 witness. -/
def c7sl : SyncLayer :=
  { SyncLayer.new 2 4 with current_frame := 5 }

/-- A stateless host whose snapshot is always frame 5 with checksum 7. -/
def c7host : Host Unit :=
  { save_game_state := fun _ => ⟨5, [], some 7⟩
    load_game_state := fun u _ => u
    advance_frame := fun u _ _ => u }

/-- C7 witness: with both checksums present (7 versus 9) and unequal, the
loop iteration reports `SyncTestFailed`. -/
theorem C7_sync_test_failed_iff_checksum_mismatch_witness :
    (c7host.save_game_state ()).frame ≠ NULL_FRAME ∧
    resim_step c7host 1 5 c7saved 0 () c7sl = RRes.err GGEZError.syncTestFailed :=
  ⟨by decide,
   (C7_sync_test_failed_iff_checksum_mismatch c7host () c7sl 1 5 c7saved 0
       ⟨5, ⟨5, [], some 9⟩, GameInput.new 5 4⟩ (by decide) (by decide) (by decide)
       (by decide) (by decide)).mpr ⟨7, 9, rfl, rfl, by decide⟩⟩

/-!
Claim C8.
-/

/-- A sequence of saves: fold `save_state` over a list of snapshots. -/
def saveSeq (r : SavedStates) (l : List GameState) : SavedStates :=
  l.foldl SavedStates.save_state r

/-- The freshly constructed saved-state ring (as built by `SyncLayer.new`):
all `MAX_PREDICTION_FRAMES` slots blank, head 0. -/
def freshRing : SavedStates :=
  { head := 0, states := List.replicate MAX_PREDICTION_FRAMES BLANK_STATE }

/-- Reading any position of the all-blank states array gives the blank
snapshot. -/
theorem getD_replicate_self {α : Type} (a : α) :
    ∀ (n j : Nat), (List.replicate n a).getD j a = a
  | 0, _ => by simp [List.getD]
  | _ + 1, 0 => rfl
  | n + 1, j + 1 => by
    rw [List.replicate_succ, List.getD_cons_succ]
    exact getD_replicate_self a n j

/-- Distinct save positions within one ring revolution occupy distinct
slots. -/
theorem mod_slot_ne {i n : Nat} (hi : i < n) (hn : n < MAX_PREDICTION_FRAMES) :
    (i + 1) % MAX_PREDICTION_FRAMES ≠ (n + 1) % MAX_PREDICTION_FRAMES := by
  have h8 : MAX_PREDICTION_FRAMES = 8 := rfl
  rw [h8] at hn ⊢
  omega

/-- Shape of the ring after at most `MAX_PREDICTION_FRAMES` saves starting
from the fresh ring: the array keeps its length, the head sits at
`length % MAX_PREDICTION_FRAMES`, the i-th saved snapshot occupies slot
`(i + 1) % MAX_PREDICTION_FRAMES`, and every other slot is still blank. -/
theorem saveSeq_spec :
    ∀ (l : List GameState), l.length ≤ MAX_PREDICTION_FRAMES →
      (saveSeq freshRing l).states.length = MAX_PREDICTION_FRAMES ∧
      (saveSeq freshRing l).head = l.length % MAX_PREDICTION_FRAMES ∧
      (∀ i (hi : i < l.length),
        (saveSeq freshRing l).states.getD ((i + 1) % MAX_PREDICTION_FRAMES) BLANK_STATE =
          l.get ⟨i, hi⟩) ∧
      (∀ j, (∀ i, i < l.length → j ≠ (i + 1) % MAX_PREDICTION_FRAMES) →
        (saveSeq freshRing l).states.getD j BLANK_STATE = BLANK_STATE) := by
  intro l
  induction l using List.reverseRecOn with
  | nil =>
    intro _
    exact ⟨rfl, rfl, fun i hi => absurd hi (Nat.not_lt_zero i),
      fun j _ => getD_replicate_self BLANK_STATE MAX_PREDICTION_FRAMES j⟩
  | append_singleton l s ih =>
    intro hn
    rw [List.length_append] at hn
    obtain ⟨ih1, ih2, ih3, ih4⟩ := ih (by omega)
    have hL : l.length < MAX_PREDICTION_FRAMES := by
      simp only [List.length_singleton] at hn
      omega
    have hsave : saveSeq freshRing (l ++ [s]) = (saveSeq freshRing l).save_state s := by
      unfold saveSeq
      rw [List.foldl_append]
      rfl
    have hhead : ((saveSeq freshRing l).head + 1) % (saveSeq freshRing l).states.length =
        (l.length + 1) % MAX_PREDICTION_FRAMES := by
      rw [ih1, ih2, Nat.mod_add_mod]
    refine ⟨?_, ?_, ?_, ?_⟩
    · rw [hsave]
      unfold SavedStates.save_state
      simp only [List.length_set]
      exact ih1
    · rw [hsave]
      unfold SavedStates.save_state
      simp only []
      rw [hhead, List.length_append, List.length_singleton]
    · intro i hi
      rw [hsave]
      unfold SavedStates.save_state
      simp only []
      rw [hhead]
      rcases Nat.lt_or_ge i l.length with hilt | hige
      · rw [getD_set_ne _ _ _ _ _ (Ne.symm (mod_slot_ne hilt hL)), ih3 i hilt]
        simp [List.get_eq_getElem, List.getElem_append_left hilt]
      · have hieq : i = l.length := by
          rw [List.length_append, List.length_singleton] at hi
          omega
        subst hieq
        rw [getD_set_self _ _ _ _ (by rw [ih1]; exact Nat.mod_lt _ (by decide))]
        rw [List.get_eq_getElem]
        exact (List.getElem_concat_length l s l.length rfl _).symm
    · intro j hjav
      rw [hsave]
      unfold SavedStates.save_state
      simp only []
      rw [hhead]
      have hjne : (l.length + 1) % MAX_PREDICTION_FRAMES ≠ j :=
        Ne.symm (hjav l.length (by
          rw [List.length_append, List.length_singleton]
          omega))
      rw [getD_set_ne _ _ _ _ _ hjne]
      exact ih4 j (fun i2 hi2 => hjav i2 (by
        rw [List.length_append, List.length_singleton]
        omega))

/-- A unique matching slot determines the result of the linear scan. -/
theorem scanFrame_eq_some (f : FrameNumber) :
    ∀ (l : List GameState) (j : Nat), j < l.length →
      (l.getD j BLANK_STATE).frame = f →
      (∀ k, k < l.length → (l.getD k BLANK_STATE).frame = f → k = j) →
      scanFrame f l = some j := by
  intro l
  induction l with
  | nil =>
    intro j hj _ _
    exact absurd hj (Nat.not_lt_zero j)
  | cons s rest ih =>
    intro j hj hmatch huniq
    unfold scanFrame
    by_cases hs : s.frame = f
    · rw [if_pos hs]
      have h0 : 0 = j := huniq 0 (Nat.succ_pos _) (by simpa using hs)
      rw [← h0]
    · rw [if_neg hs]
      obtain ⟨j2, rfl⟩ : ∃ j2, j = j2 + 1 := by
        cases j with
        | zero => exact absurd (by simpa using hmatch) hs
        | succ j2 => exact ⟨j2, rfl⟩
      have huniq2 : ∀ k, k < rest.length → (rest.getD k BLANK_STATE).frame = f → k = j2 := by
        intro k hk hkf
        have h := huniq (k + 1) (by simpa using hk) (by simpa using hkf)
        omega
      rw [ih j2 (by simpa using hj) (by simpa using hmatch) huniq2]
      rfl

/-- C8: starting from the fresh ring (all slots `NULL_FRAME`), after at most
`MAX_PREDICTION_FRAMES` saves of snapshots with pairwise distinct non-null
frames, the linear scan of `find_saved_frame_index` applied to the i-th
saved snapshot's frame returns the index of the slot holding exactly that
snapshot, for every i. -/
theorem C8_find_returns_saved_slot (l : List GameState)
    (hn : l.length ≤ MAX_PREDICTION_FRAMES)
    (hdist : l.Pairwise (fun a b => a.frame ≠ b.frame))
    (hnull : ∀ s ∈ l, s.frame ≠ NULL_FRAME)
    (i : Nat) (hi : i < l.length) :
    ∃ j, scanFrame (l.get ⟨i, hi⟩).frame (saveSeq freshRing l).states = some j ∧
      (saveSeq freshRing l).states.getD j BLANK_STATE = l.get ⟨i, hi⟩ := by
  obtain ⟨hlen, hhead, hslot, hblank⟩ := saveSeq_spec l hn
  refine ⟨(i + 1) % MAX_PREDICTION_FRAMES, ?_, hslot i hi⟩
  apply scanFrame_eq_some
  · rw [hlen]
    exact Nat.mod_lt _ (by decide)
  · rw [hslot i hi]
  · intro k hk hkf
    by_cases hex : ∃ i2, ∃ hi2 : i2 < l.length, k = (i2 + 1) % MAX_PREDICTION_FRAMES
    · obtain ⟨i2, hi2, rfl⟩ := hex
      rw [hslot i2 hi2] at hkf
      have hii : i2 = i := by
        by_contra hne
        have hpair := List.pairwise_iff_get.mp hdist
        rcases Nat.lt_or_ge i2 i with hlt | hge
        · exact hpair ⟨i2, hi2⟩ ⟨i, hi⟩ hlt hkf
        · have hlt2 : i < i2 := by omega
          exact hpair ⟨i, hi⟩ ⟨i2, hi2⟩ hlt2 hkf.symm
      rw [hii]
    · have hbl := hblank k (by
        intro i2 hi2 heq
        exact hex ⟨i2, hi2, heq⟩)
      rw [hbl] at hkf
      exact absurd hkf.symm (hnull (l.get ⟨i, hi⟩) (List.get_mem l i hi))

/-- C8 witness: three saves with distinct non-null frames 0, 5, 2; the scan
finds the third one in the slot that holds it. -/
theorem C8_find_returns_saved_slot_witness :
    ([⟨0, [], none⟩, ⟨5, [], some 1⟩, ⟨2, [], none⟩] : List GameState).length ≤
        MAX_PREDICTION_FRAMES ∧
    ∃ j, scanFrame ((([⟨0, [], none⟩, ⟨5, [], some 1⟩, ⟨2, [], none⟩] : List GameState).get
          ⟨2, by decide⟩).frame)
        (saveSeq freshRing [⟨0, [], none⟩, ⟨5, [], some 1⟩, ⟨2, [], none⟩]).states = some j ∧
      (saveSeq freshRing
          [⟨0, [], none⟩, ⟨5, [], some 1⟩, ⟨2, [], none⟩]).states.getD j BLANK_STATE =
        ([⟨0, [], none⟩, ⟨5, [], some 1⟩, ⟨2, [], none⟩] : List GameState).get ⟨2, by decide⟩ :=
  ⟨by decide,
   C8_find_returns_saved_slot [⟨0, [], none⟩, ⟨5, [], some 1⟩, ⟨2, [], none⟩]
     (by decide) (by decide) (by decide) 2 (by decide)⟩

/-!
Claim C9.
-/

/-- C9: `SyncLayer::add_local_input` is atomic on the `PredictionThreshold`
failure: whenever it returns that error, the post-call sync layer — frames,
saved-state ring, input queues — is exactly the pre-call one. -/
theorem C9_add_local_input_atomic_on_threshold (sl : SyncLayer) (p : PlayerHandle)
    (inp : GameInput)
    (h : (sl.add_local_input p inp).1 = RRes.err GGEZError.predictionThreshold) :
    (sl.add_local_input p inp).2 = sl := by
  unfold SyncLayer.add_local_input
  by_cases hfb : sl.current_frame - sl.last_confirmed_frame > (MAX_PREDICTION_FRAMES : Int)
  · rw [if_pos hfb]
  · by_cases hf : inp.frame = sl.current_frame
    · exfalso
      unfold SyncLayer.add_local_input at h
      rw [if_neg hfb, if_pos hf] at h
      rcases hg : sl.input_queues[p]? with _ | q <;> rw [hg] at h <;> simp at h
    · rw [if_neg hfb, if_neg hf]

/-- C9 witness: a layer 10 frames past its last confirmed frame rejects the
input with `PredictionThreshold` and is left unchanged. -/
theorem C9_add_local_input_atomic_on_threshold_witness :
    (({ SyncLayer.new 2 4 with current_frame := 9 }).add_local_input 0
        (GameInput.new 9 4)).1 = RRes.err GGEZError.predictionThreshold ∧
    (({ SyncLayer.new 2 4 with current_frame := 9 }).add_local_input 0
        (GameInput.new 9 4)).2 = { SyncLayer.new 2 4 with current_frame := 9 } :=
  ⟨by decide,
   C9_add_local_input_atomic_on_threshold { SyncLayer.new 2 4 with current_frame := 9 } 0
     (GameInput.new 9 4) (by decide)⟩

/-!
Claim C10.
-/

/-- C10: in `SyncTestSession::add_local_input` the handle-range check comes
before the running check: on a session that has not been started, a handle
the session considers out of range (greater than `num_players`) yields
`InvalidPlayerHandle`, not `NotSynchronized`. -/
theorem C10_handle_check_precedes_running_check (s : SyncTestSession) (p : PlayerHandle)
    (bytes : List Nat) (_hrun : s.running = false) (hp : p > s.num_players) :
    (s.add_local_input p bytes).1 = RRes.err GGEZError.invalidPlayerHandle := by
  unfold SyncTestSession.add_local_input
  rw [if_pos hp]

/-- C10 witness: a fresh (never started) 2-player session with handle 3. -/
theorem C10_handle_check_precedes_running_check_witness :
    (SyncTestSession.new 1 2 4).running = false ∧
    ((SyncTestSession.new 1 2 4).add_local_input 3 [0]).1 =
      RRes.err GGEZError.invalidPlayerHandle :=
  ⟨rfl, C10_handle_check_precedes_running_check (SyncTestSession.new 1 2 4) 3 [0]
    rfl (by decide)⟩

end GGRS
